import Mathlib

/-!
Shallow embedding of the N2S efficiency model core (src/model.py, src/config.py).

Numeric values are modelled as exact rationals (ℚ); the Python code uses IEEE
floats, and the spec states its reconciliation claims up to floating
tolerance, so the rational embedding captures the intended real-number
semantics of the formulas. String-keyed Python dicts are modelled as
association lists with `List.lookup`; the static configuration tables are
transcribed literally from `src/config.py` and `src/model.py`.
-/

namespace N2S

/-- The seven delivery phases, in the order of `PHASE_ORDER` (config.py). -/
inductive Phase where
  | discover
  | plan
  | design
  | build
  | test
  | deploy
  | postGoLive
deriving DecidableEq, Repr

/-- Embedding of `PHASE_ORDER` from config.py. -/
def PHASE_ORDER : List Phase :=
  [.discover, .plan, .design, .build, .test, .deploy, .postGoLive]

/-- Embedding of `INITIATIVE_FALLBACK` from config.py: the matrix row index. -/
def INITIATIVE_FALLBACK : List String :=
  ["Modernization Studio",
   "AI/Automation",
   "N2S CARM",
   "Preconfigured Envs",
   "Automated Testing",
   "EDCC",
   "Integration Code Reuse",
   "Agile + DevOps Practices"]

/-- The calibration constant `CALIBRATED_HOURS` in
`N2SEfficiencyModel.apply_maturity_to_matrix` (model.py). -/
def CALIBRATED_HOURS : ℚ := 17054

/-- The calibrated efficiency matrix from `get_calibrated_matrix` (model.py),
transposed to (initiative, phase) ↦ hour delta. Rows are the eight
`INITIATIVE_FALLBACK` initiatives; an unknown row name yields 0 (the pandas
DataFrame has no such row, and all iterations range over the real index). -/
def calibratedMatrix (i : String) (p : Phase) : ℚ :=
  match i with
  | "Modernization Studio" =>
    match p with
    | .discover => -26 | .plan => -37 | .design => -59 | .build => -99
    | .test => -237 | .deploy => -51 | .postGoLive => -177
  | "AI/Automation" =>
    match p with
    | .discover => -19 | .plan => -32 | .design => -51 | .build => -144
    | .test => -218 | .deploy => -96 | .postGoLive => -118
  | "N2S CARM" =>
    match p with
    | .discover => -37 | .plan => -59 | .design => -85 | .build => -118
    | .test => -190 | .deploy => -37 | .postGoLive => -144
  | "Preconfigured Envs" =>
    match p with
    | .discover => -45 | .plan => -71 | .design => -93 | .build => -177
    | .test => -144 | .deploy => -71 | .postGoLive => -211
  | "Automated Testing" =>
    match p with
    | .discover => -12 | .plan => -19 | .design => -71 | .build => -237
    | .test => -303 | .deploy => -59 | .postGoLive => -99
  | "EDCC" =>
    match p with
    | .discover => -33 | .plan => -51 | .design => -66 | .build => -112
    | .test => -125 | .deploy => -42 | .postGoLive => -112
  | "Integration Code Reuse" =>
    match p with
    | .discover => -38 | .plan => -55 | .design => -79 | .build => -218
    | .test => -336 | .deploy => -55 | .postGoLive => -164
  | "Agile + DevOps Practices" =>
    match p with
    | .discover => -45 | .plan => -63 | .design => -71 | .build => -125
    | .test => -177 | .deploy => -85 | .postGoLive => -144
  | _ => 0

/-- The maturity multiplier applied to a matrix row in
`apply_maturity_to_matrix` (model.py):  if the initiative is a key of
`maturity_levels` its row is scaled by `maturity/100`, otherwise the row is
left unchanged (factor 1). -/
def maturityFactor (maturity_levels : List (String × ℚ)) (i : String) : ℚ :=
  match maturity_levels.lookup i with
  | some m => m / 100
  | none => 1

/-- Embedding of `N2SEfficiencyModel.apply_maturity_to_matrix` (model.py): the effective
hour-delta matrix, scaled by project size `total_hours / CALIBRATED_HOURS`
and then by the per-initiative maturity fraction. -/
def apply_maturity_to_matrix (maturity_levels : List (String × ℚ))
    (total_hours : ℚ) (i : String) (p : Phase) : ℚ :=
  calibratedMatrix i p * (total_hours / CALIBRATED_HOURS)
    * maturityFactor maturity_levels i

/-- Embedding of `calculate_baseline_hours` (config.py, line 709). -/
def calculate_baseline_hours (total_hours : ℚ) (allocation : Phase → ℚ)
    (p : Phase) : ℚ :=
  total_hours * (allocation p / 100)

/-- The columns of the calibrated matrix DataFrame (the keys of
`sample_data` in `get_calibrated_matrix`). -/
def MATRIX_COLUMNS : List Phase := PHASE_ORDER

/-- Embedding of `effective_matrix[phase].sum()` in `apply_maturity_levels` (model.py):
the summed effective delta of all initiatives for one phase. -/
def phaseDelta (maturity_levels : List (String × ℚ)) (total_hours : ℚ)
    (p : Phase) : ℚ :=
  (INITIATIVE_FALLBACK.map
    (fun i => apply_maturity_to_matrix maturity_levels total_hours i p)).sum

/-- The modeled hours of `N2SEfficiencyModel.apply_maturity_levels`
(model.py, lines 379-386): baseline plus summed deltas, floored at zero,
for phases present in the matrix; bare baseline otherwise. -/
def modeled_hours (maturity_levels : List (String × ℚ)) (total_hours : ℚ)
    (allocation : Phase → ℚ) (p : Phase) : ℚ :=
  if p ∈ MATRIX_COLUMNS then
    max 0 (calculate_baseline_hours total_hours allocation p
            + phaseDelta maturity_levels total_hours p)
  else
    calculate_baseline_hours total_hours allocation p

/-- Embedding of `DEFAULT_PHASE_ALLOCATION` from config.py. -/
def DEFAULT_PHASE_ALLOCATION : Phase → ℚ
  | .discover => 5
  | .plan => 10
  | .design => 15
  | .build => 25
  | .test => 20
  | .deploy => 10
  | .postGoLive => 15

/-- A cost-avoidance preset (`COST_AVOIDANCE_OPTIONS` entries in config.py):
`multiplier` and `ongoing_factor`. -/
structure CostAvoidanceConfig where
  multiplier : ℚ
  ongoing_factor : ℚ

/-- The four phase-keyed maps returned by
`N2SEfficiencyModel.calculate_costs_and_savings` (model.py). -/
structure CostResults where
  baseline_cost : Phase → ℚ
  modeled_cost : Phase → ℚ
  savings : Phase → ℚ
  avoidance : Phase → ℚ

/-- Embedding of the dev-savings sum at model.py line 453: total direct
savings over every phase of PHASE_ORDER other than Post Go-Live. -/
def devSavingsTotal (savings : Phase → ℚ) : ℚ :=
  ((PHASE_ORDER.filter (fun p => p != Phase.postGoLive)).map savings).sum

/-- Embedding of `N2SEfficiencyModel.calculate_costs_and_savings` (model.py, lines
425-466).  Costs are hours × blended rate; direct savings are computed for
every phase of `PHASE_ORDER`; when cost avoidance is enabled and a config is
supplied, the post-go-live phase carries
`max(0, dev_savings * ongoing_factor) * multiplier` and every other phase
carries 0; otherwise avoidance is 0 everywhere. -/
def calculate_costs_and_savings (baseline_hours modeled_hours : Phase → ℚ)
    (blended_rate : ℚ) (include_cost_avoidance : Bool)
    (cost_avoidance_config : Option CostAvoidanceConfig) : CostResults :=
  let baseline_cost := fun p => baseline_hours p * blended_rate
  let modeled_cost := fun p => modeled_hours p * blended_rate
  let savings := fun p => baseline_cost p - modeled_cost p
  let avoidance := fun p =>
    match include_cost_avoidance, cost_avoidance_config with
    | true, some cfg =>
      if p = Phase.postGoLive then
        max 0 (devSavingsTotal savings * cfg.ongoing_factor) * cfg.multiplier
      else 0
    | _, _ => 0
  ⟨baseline_cost, modeled_cost, savings, avoidance⟩

/-- The scalar fields returned by `N2SEfficiencyModel.get_kpi_summary`
(model.py, lines 515-544). -/
structure KPISummary where
  total_baseline_hours : ℚ
  total_modeled_hours : ℚ
  total_hours_saved : ℚ
  total_hours_saved_pct : ℚ
  total_baseline_cost : ℚ
  total_modeled_cost : ℚ
  total_cost_savings : ℚ
  total_cost_avoidance : ℚ
  total_financial_benefit : ℚ

/-- Embedding of `N2SEfficiencyModel.get_kpi_summary` (model.py).  All the phase-keyed
dicts it sums have exactly the `PHASE_ORDER` phases as keys. -/
def get_kpi_summary (baseline_hours modeled_hours : Phase → ℚ)
    (cost_results : CostResults) : KPISummary :=
  let total_baseline_hours := (PHASE_ORDER.map baseline_hours).sum
  let total_modeled_hours := (PHASE_ORDER.map modeled_hours).sum
  let total_hours_saved := total_baseline_hours - total_modeled_hours
  let total_hours_saved_pct :=
    if 0 < total_baseline_hours then
      total_hours_saved / total_baseline_hours * 100
    else 0
  let total_baseline_cost := (PHASE_ORDER.map cost_results.baseline_cost).sum
  let total_modeled_cost := (PHASE_ORDER.map cost_results.modeled_cost).sum
  let total_cost_savings := (PHASE_ORDER.map cost_results.savings).sum
  let total_cost_avoidance := (PHASE_ORDER.map cost_results.avoidance).sum
  ⟨total_baseline_hours, total_modeled_hours, total_hours_saved,
   total_hours_saved_pct, total_baseline_cost, total_modeled_cost,
   total_cost_savings, total_cost_avoidance,
   total_cost_savings + total_cost_avoidance⟩

/-- Embedding of `N2SEfficiencyModel.calculate_risk_adjusted_hours` (model.py, lines
468-480): multiply by the risk weight of the phase when present, pass the
modeled hours through unchanged when the phase has no entry. -/
def calculate_risk_adjusted_hours (modeled : Phase → ℚ)
    (risk_weights : List (Phase × ℚ)) (p : Phase) : ℚ :=
  match risk_weights.lookup p with
  | some w => modeled p * w
  | none => modeled p

/-- The sixteen roles of `ROLE_DEFINITIONS` (config.py), in dict order. -/
inductive Role where
  | projectManager
  | solutionsArchitect
  | technicalArchitect
  | integrationLead
  | platformLead
  | studentARConsultant
  | finAidConsultant
  | financeConsultant
  | hrConsultant
  | integrationEngineer
  | degreeWorksConsultant
  | degreeWorksScribe
  | reportingConsultant
  | experienceConsultant
  | changeManagement
  | otherContingency
deriving DecidableEq, Repr

/-- Embedding of `ROLE_DEFINITIONS.keys()` (config.py): iteration order of the role dict. -/
def ROLES : List Role :=
  [.projectManager, .solutionsArchitect, .technicalArchitect, .integrationLead,
   .platformLead, .studentARConsultant, .finAidConsultant, .financeConsultant,
   .hrConsultant, .integrationEngineer, .degreeWorksConsultant,
   .degreeWorksScribe, .reportingConsultant, .experienceConsultant,
   .changeManagement, .otherContingency]

/-- The `base_hours` field of `ROLE_DEFINITIONS` (config.py). -/
def base_hours : Role → ℚ
  | .projectManager => 1600
  | .solutionsArchitect => 780
  | .technicalArchitect => 468
  | .integrationLead => 936
  | .platformLead => 468
  | .studentARConsultant => 936
  | .finAidConsultant => 137
  | .financeConsultant => 137
  | .hrConsultant => 137
  | .integrationEngineer => 951
  | .degreeWorksConsultant => 92
  | .degreeWorksScribe => 46
  | .reportingConsultant => 166
  | .experienceConsultant => 166
  | .changeManagement => 320
  | .otherContingency => 100

/-- Embedding of `ROLE_PHASE_ALLOCATION` (config.py): per-role phase percentages.  Every
role has an entry for every phase (each row sums to 100). -/
def ROLE_PHASE_ALLOCATION : Role → Phase → ℚ
  | .projectManager, p =>
    match p with
    | .discover => 15 | .plan => 20 | .design => 10 | .build => 15
    | .test => 15 | .deploy => 15 | .postGoLive => 10
  | .solutionsArchitect, p =>
    match p with
    | .discover => 20 | .plan => 15 | .design => 25 | .build => 15
    | .test => 10 | .deploy => 10 | .postGoLive => 5
  | .technicalArchitect, p =>
    match p with
    | .discover => 10 | .plan => 10 | .design => 25 | .build => 30
    | .test => 15 | .deploy => 5 | .postGoLive => 5
  | .integrationLead, p =>
    match p with
    | .discover => 10 | .plan => 15 | .design => 20 | .build => 25
    | .test => 20 | .deploy => 5 | .postGoLive => 5
  | .platformLead, p =>
    match p with
    | .discover => 10 | .plan => 10 | .design => 25 | .build => 30
    | .test => 15 | .deploy => 5 | .postGoLive => 5
  | .studentARConsultant, p =>
    match p with
    | .discover => 15 | .plan => 10 | .design => 20 | .build => 25
    | .test => 20 | .deploy => 5 | .postGoLive => 5
  | .finAidConsultant, p =>
    match p with
    | .discover => 20 | .plan => 10 | .design => 15 | .build => 30
    | .test => 20 | .deploy => 3 | .postGoLive => 2
  | .financeConsultant, p =>
    match p with
    | .discover => 20 | .plan => 10 | .design => 15 | .build => 30
    | .test => 20 | .deploy => 3 | .postGoLive => 2
  | .hrConsultant, p =>
    match p with
    | .discover => 20 | .plan => 10 | .design => 15 | .build => 30
    | .test => 20 | .deploy => 3 | .postGoLive => 2
  | .integrationEngineer, p =>
    match p with
    | .discover => 5 | .plan => 5 | .design => 15 | .build => 40
    | .test => 25 | .deploy => 5 | .postGoLive => 5
  | .degreeWorksConsultant, p =>
    match p with
    | .discover => 10 | .plan => 10 | .design => 20 | .build => 35
    | .test => 20 | .deploy => 3 | .postGoLive => 2
  | .degreeWorksScribe, p =>
    match p with
    | .discover => 5 | .plan => 5 | .design => 15 | .build => 50
    | .test => 20 | .deploy => 3 | .postGoLive => 2
  | .reportingConsultant, p =>
    match p with
    | .discover => 10 | .plan => 10 | .design => 20 | .build => 35
    | .test => 20 | .deploy => 3 | .postGoLive => 2
  | .experienceConsultant, p =>
    match p with
    | .discover => 15 | .plan => 10 | .design => 25 | .build => 30
    | .test => 15 | .deploy => 3 | .postGoLive => 2
  | .changeManagement, p =>
    match p with
    | .discover => 20 | .plan => 15 | .design => 10 | .build => 10
    | .test => 10 | .deploy => 20 | .postGoLive => 15
  | .otherContingency, p =>
    match p with
    | .discover => 15 | .plan => 15 | .design => 15 | .build => 20
    | .test => 15 | .deploy => 10 | .postGoLive => 10

/-- Weight of one role for one phase in `calculate_role_based_hours`
(model.py, lines 640-649): `base_hours * phase_pct / 100`. -/
def roleWeight (r : Role) (p : Phase) : ℚ :=
  base_hours r * (ROLE_PHASE_ALLOCATION r p / 100)

/-- Embedding of `phase_total_weights[phase]` (model.py): the summed role weights of one
phase over all roles. -/
def phaseTotalWeight (p : Phase) : ℚ :=
  (ROLES.map (fun r => roleWeight r p)).sum

/-- Embedding of `calculate_role_based_hours` (model.py, lines 613-692), for one role and
phase.  The Python guards `phase in phase_hours` and
`phase in role_allocation` are always true here: phase maps are total over
the seven phases and every `ROLE_PHASE_ALLOCATION` row has all phases.  The
multiplier defaults to 1.0 unless savings are included, a multiplier dict is
supplied, and the role has an entry in it; the `(2 - multiplier)` correction
is applied only on the `role_multiplier != 1.0` branch, exactly as in the
source. -/
def calculate_role_based_hours (phase_hours : Phase → ℚ)
    (include_savings : Bool)
    (role_specific_multipliers : Option (List (Role × ℚ)))
    (r : Role) (p : Phase) : ℚ :=
  let role_multiplier : ℚ :=
    match include_savings, role_specific_multipliers with
    | true, some ms =>
      match ms.lookup r with
      | some m => m
      | none => 1
    | _, _ => 1
  if 0 < phaseTotalWeight p then
    let role_share := roleWeight r p / phaseTotalWeight p
    if include_savings ∧ role_multiplier ≠ 1 then
      phase_hours p * role_share * (2 - role_multiplier)
    else
      phase_hours p * role_share
  else 0

/-- The default `initiative_mapping` of
`calculate_role_initiative_multipliers` (model.py, lines 712-725). -/
def initiative_mapping : List (String × String) :=
  [("Automated Testing", "Automated Testing"),
   ("AI/Automation", "AI/Automation"),
   ("DevSecOps Pipeline", "DevSecOps"),
   ("Modernization Studio", "Reusable Components"),
   ("Cloud-Native Patterns", "Reusable Components"),
   ("N2S CARM", "Knowledge Base"),
   ("Agile Methodology", "Agile Practices"),
   ("Agile + DevOps Practices", "Agile + DevOps"),
   ("EDCC", "Knowledge Base"),
   ("Preconfigured Envs", "Reusable Components"),
   ("Integration Code Reuse", "Reusable Components")]

/-- Embedding of `ROLE_INITIATIVE_MULTIPLIERS` (config.py, lines 1075-1202).  Every
multiplier category assigns a value to every role
(`FUNCTIONAL_CONSULTANT_MULTIPLIER` is 1.0). -/
def ROLE_INITIATIVE_MULTIPLIERS : List (String × (Role → ℚ)) :=
  [("Automated Testing", fun r =>
     match r with
     | .projectManager => 0.90 | .solutionsArchitect => 0.95
     | .technicalArchitect => 1.05 | .integrationLead => 1.05
     | .platformLead => 1.05 | .studentARConsultant => 1
     | .finAidConsultant => 1 | .financeConsultant => 1
     | .hrConsultant => 1 | .integrationEngineer => 1.10
     | .degreeWorksConsultant => 1 | .degreeWorksScribe => 1.20
     | .reportingConsultant => 1.05 | .experienceConsultant => 1.08
     | .changeManagement => 0.75 | .otherContingency => 1),
   ("AI/Automation", fun r =>
     match r with
     | .projectManager => 1.05 | .solutionsArchitect => 1.02
     | .technicalArchitect => 1.08 | .integrationLead => 1.05
     | .platformLead => 1.08 | .studentARConsultant => 1
     | .finAidConsultant => 1 | .financeConsultant => 1
     | .hrConsultant => 1 | .integrationEngineer => 1.10
     | .degreeWorksConsultant => 1 | .degreeWorksScribe => 1.15
     | .reportingConsultant => 1.08 | .experienceConsultant => 1.05
     | .changeManagement => 0.85 | .otherContingency => 1),
   ("DevSecOps", fun r =>
     match r with
     | .projectManager => 0.95 | .solutionsArchitect => 1.02
     | .technicalArchitect => 1.08 | .integrationLead => 1.05
     | .platformLead => 1.08 | .studentARConsultant => 1
     | .finAidConsultant => 1 | .financeConsultant => 1
     | .hrConsultant => 1 | .integrationEngineer => 1.12
     | .degreeWorksConsultant => 1 | .degreeWorksScribe => 0.98
     | .reportingConsultant => 1.02 | .experienceConsultant => 1.05
     | .changeManagement => 0.80 | .otherContingency => 1),
   ("Reusable Components", fun r =>
     match r with
     | .projectManager => 0.95 | .solutionsArchitect => 1.05
     | .technicalArchitect => 1.08 | .integrationLead => 1.05
     | .platformLead => 1.08 | .studentARConsultant => 1
     | .finAidConsultant => 1 | .financeConsultant => 1
     | .hrConsultant => 1 | .integrationEngineer => 1.10
     | .degreeWorksConsultant => 1 | .degreeWorksScribe => 1.00
     | .reportingConsultant => 1.08 | .experienceConsultant => 1.12
     | .changeManagement => 0.85 | .otherContingency => 1),
   ("Knowledge Base", fun r =>
     match r with
     | .projectManager => 1.00 | .solutionsArchitect => 1.03
     | .technicalArchitect => 1.03 | .integrationLead => 1.02
     | .platformLead => 1.03 | .studentARConsultant => 1
     | .finAidConsultant => 1 | .financeConsultant => 1
     | .hrConsultant => 1 | .integrationEngineer => 1.05
     | .degreeWorksConsultant => 1.05 | .degreeWorksScribe => 1.08
     | .reportingConsultant => 1.05 | .experienceConsultant => 1.03
     | .changeManagement => 1.10 | .otherContingency => 1),
   ("Agile Practices", fun r =>
     match r with
     | .projectManager => 1.08 | .solutionsArchitect => 1.02
     | .technicalArchitect => 1.00 | .integrationLead => 1.02
     | .platformLead => 1.00 | .studentARConsultant => 1
     | .finAidConsultant => 1 | .financeConsultant => 1
     | .hrConsultant => 1 | .integrationEngineer => 1.02
     | .degreeWorksConsultant => 1 | .degreeWorksScribe => 0.98
     | .reportingConsultant => 1.00 | .experienceConsultant => 1.02
     | .changeManagement => 1.05 | .otherContingency => 1),
   ("Agile + DevOps", fun r =>
     match r with
     | .projectManager => 1.10 | .solutionsArchitect => 1.03
     | .technicalArchitect => 1.05 | .integrationLead => 1.05
     | .platformLead => 1.05 | .studentARConsultant => 1
     | .finAidConsultant => 1 | .financeConsultant => 1
     | .hrConsultant => 1 | .integrationEngineer => 1.08
     | .degreeWorksConsultant => 1 | .degreeWorksScribe => 0.98
     | .reportingConsultant => 1.02 | .experienceConsultant => 1.03
     | .changeManagement => 1.08 | .otherContingency => 1)]

/-- The `weighted_multiplier` accumulator of
`calculate_role_initiative_multipliers` (model.py, lines 730-744): one
initiative contributes `categoryMultiplier[map(i)][r] * maturity/100` when
its maturity is positive and it has a mapping to a known category. -/
def weightedMultiplierSum (maturity_levels : List (String × ℚ)) (r : Role) : ℚ :=
  (maturity_levels.map (fun im =>
    if 0 < im.2 then
      match initiative_mapping.lookup im.1 with
      | some key =>
        match ROLE_INITIATIVE_MULTIPLIERS.lookup key with
        | some ms => ms r * (im.2 / 100)
        | none => 0
      | none => 0
    else 0)).sum

/-- The `total_weight` accumulator of
`calculate_role_initiative_multipliers` (model.py): the same guard,
contributing `maturity/100`. -/
def multiplierWeightSum (maturity_levels : List (String × ℚ)) (_r : Role) : ℚ :=
  (maturity_levels.map (fun im =>
    if 0 < im.2 then
      match initiative_mapping.lookup im.1 with
      | some key =>
        match ROLE_INITIATIVE_MULTIPLIERS.lookup key with
        | some _ => im.2 / 100
        | none => 0
      | none => 0
    else 0)).sum

/-- Embedding of `calculate_role_initiative_multipliers` (model.py, lines 695-752), for
one role: maturity-weighted average of the per-category role multipliers
over the active mapped initiatives; 1.0 when no such initiative exists. -/
def calculate_role_initiative_multipliers
    (maturity_levels : List (String × ℚ)) (r : Role) : ℚ :=
  if 0 < multiplierWeightSum maturity_levels r then
    weightedMultiplierSum maturity_levels r / multiplierWeightSum maturity_levels r
  else 1

/-- Embedding of `SAVINGS_CATEGORIES.keys()` in the column order used by
`calculate_savings_by_category` (model.py, line 917). -/
def SAVINGS_CATEGORIES : List String :=
  ["OOtB Config", "N2S Methodology & Controls", "AI & Automation"]

/-- Embedding of `SAVINGS_CATEGORY_MAPPING` (config.py, lines 1218-1277): per-initiative
category weight vectors. -/
def SAVINGS_CATEGORY_MAPPING : List (String × List (String × ℚ)) :=
  [("Automated Testing",
    [("AI & Automation", 0.55), ("N2S Methodology & Controls", 0.30),
     ("OOtB Config", 0.15)]),
   ("AI/Automation",
    [("AI & Automation", 0.70), ("N2S Methodology & Controls", 0.20),
     ("OOtB Config", 0.10)]),
   ("Modernization Studio",
    [("OOtB Config", 0.50), ("N2S Methodology & Controls", 0.35),
     ("AI & Automation", 0.15)]),
   ("N2S CARM",
    [("N2S Methodology & Controls", 0.65), ("OOtB Config", 0.35)]),
   ("EDCC",
    [("N2S Methodology & Controls", 0.80), ("AI & Automation", 0.12),
     ("OOtB Config", 0.08)]),
   ("Preconfigured Envs",
    [("OOtB Config", 0.65), ("AI & Automation", 0.22),
     ("N2S Methodology & Controls", 0.13)]),
   ("Integration Code Reuse",
    [("OOtB Config", 0.60), ("N2S Methodology & Controls", 0.27),
     ("AI & Automation", 0.13)]),
   ("DevSecOps Pipeline",
    [("N2S Methodology & Controls", 0.55), ("AI & Automation", 0.45)]),
   ("Cloud-Native Patterns",
    [("OOtB Config", 0.45), ("N2S Methodology & Controls", 0.35),
     ("AI & Automation", 0.20)]),
   ("Agile Methodology",
    [("N2S Methodology & Controls", 0.75), ("AI & Automation", 0.15),
     ("OOtB Config", 0.10)]),
   ("Agile + DevOps Practices",
    [("N2S Methodology & Controls", 0.70), ("AI & Automation", 0.20),
     ("OOtB Config", 0.10)])]

/-- Embedding of `role_savings[role_name]` in `calculate_savings_by_category` (model.py,
lines 882-887): the total hours saved by a role, baseline row sum minus modeled
row sum over the phase columns. -/
def role_savings (baseline_role_hours modeled_role_hours : Role → Phase → ℚ)
    (r : Role) : ℚ :=
  (PHASE_ORDER.map (baseline_role_hours r)).sum
    - (PHASE_ORDER.map (modeled_role_hours r)).sum

/-- Embedding of `total_maturity_weight = sum(maturity_levels.values())` (model.py,
line 894): over ALL entries of the maturity dict, mapped or not. -/
def total_maturity_weight (maturity_levels : List (String × ℚ)) : ℚ :=
  (maturity_levels.map Prod.snd).sum

/-- Contribution of one maturity entry to one category cell in
`calculate_savings_by_category` (model.py, lines 897-911):
`S * (maturity / total_weight) * categoryWeight`, and 0 when the maturity
is not positive, the initiative has no category mapping, or the mapping
gives the category no weight. -/
def categoryContribution (S T : ℚ) (c : String) (im : String × ℚ) : ℚ :=
  if 0 < im.2 then
    match SAVINGS_CATEGORY_MAPPING.lookup im.1 with
    | some alloc => S * (im.2 / T) * ((alloc.lookup c).getD 0)
    | none => 0
  else 0

/-- Embedding of `calculate_savings_by_category` (model.py, lines 861-920), for one role
and category: the accumulated contributions of all maturity entries, behind
the `total_maturity_weight > 0` guard. -/
def calculate_savings_by_category
    (baseline_role_hours modeled_role_hours : Role → Phase → ℚ)
    (maturity_levels : List (String × ℚ)) (r : Role) (c : String) : ℚ :=
  if 0 < total_maturity_weight maturity_levels then
    (maturity_levels.map
      (categoryContribution
        (role_savings baseline_role_hours modeled_role_hours r)
        (total_maturity_weight maturity_levels) c)).sum
  else 0

/-! ## Theorems -/

/-- C5: for every `total_hours` and every non-negative phase allocation
summing to 100, the baseline hours of each phase are
`total_hours * allocation[p] / 100`, and the baseline hours sum exactly to
`total_hours`. -/
theorem C5_baseline_allocation_exact (total_hours : ℚ) (allocation : Phase → ℚ)
    (hsum : (PHASE_ORDER.map allocation).sum = 100)
    (hnonneg : ∀ p, 0 ≤ allocation p) :
    (∀ p, calculate_baseline_hours total_hours allocation p
        = total_hours * allocation p / 100)
    ∧ (PHASE_ORDER.map (calculate_baseline_hours total_hours allocation)).sum
        = total_hours := by
  refine ⟨fun p => by unfold calculate_baseline_hours; ring, ?_⟩
  have h0 := hnonneg Phase.discover
  simp only [PHASE_ORDER, List.map_cons, List.map_nil, List.sum_cons,
    List.sum_nil] at hsum ⊢
  unfold calculate_baseline_hours
  linear_combination (total_hours / 100) * hsum

/-- Witness for C5 at the default allocation and the calibration size. -/
theorem C5_baseline_allocation_exact_witness :
    ((PHASE_ORDER.map DEFAULT_PHASE_ALLOCATION).sum = 100
      ∧ (∀ p, 0 ≤ DEFAULT_PHASE_ALLOCATION p))
    ∧ (PHASE_ORDER.map
        (calculate_baseline_hours 17054 DEFAULT_PHASE_ALLOCATION)).sum
        = 17054 := by
  have h1 : (PHASE_ORDER.map DEFAULT_PHASE_ALLOCATION).sum = 100 := by
    norm_num [PHASE_ORDER, DEFAULT_PHASE_ALLOCATION]
  have h2 : ∀ p, 0 ≤ DEFAULT_PHASE_ALLOCATION p := by
    intro p
    cases p <;> norm_num [DEFAULT_PHASE_ALLOCATION]
  exact ⟨⟨h1, h2⟩,
    (C5_baseline_allocation_exact 17054 DEFAULT_PHASE_ALLOCATION h1 h2).2⟩

/-- C4: for every phase and every scenario input, the modeled hours are
the baseline plus the summed effective initiative deltas, floored at zero,
and are therefore non-negative. -/
theorem C4_modeled_hours_floor (maturity_levels : List (String × ℚ))
    (total_hours : ℚ) (allocation : Phase → ℚ) (p : Phase) :
    modeled_hours maturity_levels total_hours allocation p
      = max 0 (calculate_baseline_hours total_hours allocation p
                + phaseDelta maturity_levels total_hours p)
    ∧ 0 ≤ modeled_hours maturity_levels total_hours allocation p := by
  have hp : p ∈ MATRIX_COLUMNS := by
    cases p <;> simp [MATRIX_COLUMNS, PHASE_ORDER]
  unfold modeled_hours
  rw [if_pos hp]
  exact ⟨rfl, le_max_left 0 _⟩

/-- C10: a phase with no entry in the caller-supplied risk-weight map is
passed through risk adjustment unchanged. -/
theorem C10_missing_risk_weight_passthrough (modeled : Phase → ℚ)
    (risk_weights : List (Phase × ℚ)) (p : Phase)
    (h : risk_weights.lookup p = none) :
    calculate_risk_adjusted_hours modeled risk_weights p = modeled p := by
  unfold calculate_risk_adjusted_hours
  rw [h]

/-- Witness for C10: risk weights supplied only for Discover leave the Build
modeled hours unchanged. -/
theorem C10_missing_risk_weight_passthrough_witness :
    (([(Phase.discover, (2 : ℚ))]).lookup Phase.build = none)
    ∧ calculate_risk_adjusted_hours (fun _ => 100)
        [(Phase.discover, (2 : ℚ))] Phase.build = 100 := by
  have h : ([(Phase.discover, (2 : ℚ))]).lookup Phase.build = none := rfl
  exact ⟨h, C10_missing_risk_weight_passthrough (fun _ => 100) _ _ h⟩

/-- C9: an initiative of the calibrated matrix with no entry in the
maturity map keeps its full size-scaled delta — the same value it would
have at 100% maturity — rather than contributing zero. -/
theorem C9_missing_maturity_full_contribution
    (maturity_levels : List (String × ℚ)) (total_hours : ℚ) (i : String)
    (p : Phase) (_hi : i ∈ INITIATIVE_FALLBACK)
    (hnone : maturity_levels.lookup i = none) :
    apply_maturity_to_matrix maturity_levels total_hours i p
      = calibratedMatrix i p * (total_hours / CALIBRATED_HOURS)
    ∧ apply_maturity_to_matrix maturity_levels total_hours i p
      = apply_maturity_to_matrix [(i, 100)] total_hours i p := by
  have hf : maturityFactor maturity_levels i = 1 := by
    unfold maturityFactor
    rw [hnone]
  have hf100 : maturityFactor [(i, 100)] i = 1 := by
    unfold maturityFactor
    have : ([(i, (100 : ℚ))]).lookup i = some 100 := by
      simp [List.lookup]
    rw [this]
    norm_num
  unfold apply_maturity_to_matrix
  rw [hf, hf100]
  exact ⟨by ring, by ring⟩

/-- Witness for C9: with an empty maturity map, the Modernization Studio
Discover delta stays at its full calibrated value (−26), not zero. -/
theorem C9_missing_maturity_full_contribution_witness :
    ("Modernization Studio" ∈ INITIATIVE_FALLBACK
      ∧ (([] : List (String × ℚ)).lookup "Modernization Studio" = none))
    ∧ apply_maturity_to_matrix [] 17054 "Modernization Studio" Phase.discover
        = calibratedMatrix "Modernization Studio" Phase.discover
            * (17054 / CALIBRATED_HOURS)
    ∧ calibratedMatrix "Modernization Studio" Phase.discover
        * ((17054 : ℚ) / CALIBRATED_HOURS) ≠ 0 := by
  have hi : "Modernization Studio" ∈ INITIATIVE_FALLBACK := by
    simp [INITIATIVE_FALLBACK]
  have hn : (([] : List (String × ℚ)).lookup "Modernization Studio" = none) :=
    rfl
  refine ⟨⟨hi, hn⟩,
    (C9_missing_maturity_full_contribution [] 17054 "Modernization Studio"
      Phase.discover hi hn).1, ?_⟩
  norm_num [calibratedMatrix, CALIBRATED_HOURS]

/-- C6: with cost avoidance enabled and a config supplied, the
post-go-live avoidance is `max(0, dev_savings_total * ongoing_factor) *
multiplier` where `dev_savings_total` sums the direct savings of every
phase except Post Go-Live; the avoidance of every other phase is 0; and a
non-positive `dev_savings_total` (with a non-negative ongoing factor) is
floored to 0 before the multiplier is applied, yielding avoidance 0. -/
theorem C6_cost_avoidance_formula (baseline modeled : Phase → ℚ)
    (blended_rate : ℚ) (cfg : CostAvoidanceConfig) :
    (calculate_costs_and_savings baseline modeled blended_rate true
        (some cfg)).avoidance Phase.postGoLive
      = max 0 (devSavingsTotal
            (calculate_costs_and_savings baseline modeled blended_rate true
              (some cfg)).savings * cfg.ongoing_factor) * cfg.multiplier
    ∧ (∀ p, p ≠ Phase.postGoLive →
        (calculate_costs_and_savings baseline modeled blended_rate true
          (some cfg)).avoidance p = 0)
    ∧ (devSavingsTotal
          (calculate_costs_and_savings baseline modeled blended_rate true
            (some cfg)).savings ≤ 0 →
        0 ≤ cfg.ongoing_factor →
        (calculate_costs_and_savings baseline modeled blended_rate true
          (some cfg)).avoidance Phase.postGoLive = 0) := by
  refine ⟨rfl, ?_, ?_⟩
  · intro p hp
    show (if p = Phase.postGoLive then _ else 0) = 0
    rw [if_neg hp]
  · intro hdev hof
    have h1 : (calculate_costs_and_savings baseline modeled blended_rate true
        (some cfg)).avoidance Phase.postGoLive
        = max 0 (devSavingsTotal
            (calculate_costs_and_savings baseline modeled blended_rate true
              (some cfg)).savings * cfg.ongoing_factor) * cfg.multiplier :=
      rfl
    rw [h1, max_eq_left (mul_nonpos_of_nonpos_of_nonneg hdev hof), zero_mul]

/-- Witness for C6: a scenario where the modeled hours of every phase exceed the
baseline (negative direct savings everywhere), with the Moderate preset:
avoidance at Post Go-Live is 0, and avoidance at Build is 0. -/
theorem C6_cost_avoidance_formula_witness :
    (Phase.build ≠ Phase.postGoLive
      ∧ devSavingsTotal
          (calculate_costs_and_savings (fun _ => 100) (fun _ => 110) 1 true
            (some ⟨5/2, 4/5⟩)).savings ≤ 0
      ∧ (0 : ℚ) ≤ (CostAvoidanceConfig.mk (5/2) (4/5)).ongoing_factor)
    ∧ (calculate_costs_and_savings (fun _ => 100) (fun _ => 110) 1 true
        (some ⟨5/2, 4/5⟩)).avoidance Phase.build = 0
    ∧ (calculate_costs_and_savings (fun _ => 100) (fun _ => 110) 1 true
        (some ⟨5/2, 4/5⟩)).avoidance Phase.postGoLive = 0 := by
  have hb : Phase.build ≠ Phase.postGoLive := by decide
  have hdev : devSavingsTotal
      (calculate_costs_and_savings (fun _ => 100) (fun _ => 110) 1 true
        (some ⟨5/2, 4/5⟩)).savings ≤ 0 := by
    norm_num [devSavingsTotal, calculate_costs_and_savings, PHASE_ORDER,
      List.filter]
  have hof : (0 : ℚ) ≤ (CostAvoidanceConfig.mk (5/2) (4/5)).ongoing_factor := by
    norm_num
  exact ⟨⟨hb, hdev, hof⟩,
    (C6_cost_avoidance_formula (fun _ => 100) (fun _ => 110) 1 ⟨5/2, 4/5⟩).2.1
      Phase.build hb,
    (C6_cost_avoidance_formula (fun _ => 100) (fun _ => 110) 1 ⟨5/2, 4/5⟩).2.2
      hdev hof⟩

/-- C1, counterexample: direct savings are NOT reported only for the
development phases.  With baseline 100 h and modeled 90 h in every phase at
rate 1, the Post Go-Live direct-savings figure is 10 (not 0), and the
total-cost-savings KPI (70) is not the development-phases-only sum (60). -/
theorem C1_counterexample :
    ¬ ((calculate_costs_and_savings (fun _ => 100) (fun _ => 90) 1 true
          (some ⟨1, 1⟩)).savings Phase.postGoLive = 0
       ∧ (get_kpi_summary (fun _ => 100) (fun _ => 90)
            (calculate_costs_and_savings (fun _ => 100) (fun _ => 90) 1 true
              (some ⟨1, 1⟩))).total_cost_savings
          = devSavingsTotal
              (calculate_costs_and_savings (fun _ => 100) (fun _ => 90) 1
                true (some ⟨1, 1⟩)).savings) := by
  rintro ⟨h1, -⟩
  norm_num [calculate_costs_and_savings] at h1

/-- C1, amended: `calculate_costs_and_savings` computes a direct-savings
figure for every phase including Post Go-Live
(`(baseline − modeled) · rate`), and the total-cost-savings KPI sums direct
savings over ALL phases: it equals the development-phase total PLUS the
Post Go-Live direct savings.  (Only the avoidance figure is exclusive to
Post Go-Live, per C6.) -/
theorem C1_amended_savings_all_phases (baseline modeled : Phase → ℚ)
    (blended_rate : ℚ) (include_ca : Bool)
    (cfg : Option CostAvoidanceConfig) :
    (calculate_costs_and_savings baseline modeled blended_rate include_ca
        cfg).savings Phase.postGoLive
      = (baseline Phase.postGoLive - modeled Phase.postGoLive) * blended_rate
    ∧ (get_kpi_summary baseline modeled
        (calculate_costs_and_savings baseline modeled blended_rate
          include_ca cfg)).total_cost_savings
      = devSavingsTotal
          (calculate_costs_and_savings baseline modeled blended_rate
            include_ca cfg).savings
        + (calculate_costs_and_savings baseline modeled blended_rate
            include_ca cfg).savings Phase.postGoLive := by
  constructor
  · show baseline Phase.postGoLive * blended_rate
        - modeled Phase.postGoLive * blended_rate = _
    ring
  · have hfil : PHASE_ORDER.filter (fun p => p != Phase.postGoLive)
        = [.discover, .plan, .design, .build, .test, .deploy] := rfl
    unfold get_kpi_summary devSavingsTotal
    rw [hfil]
    simp only [PHASE_ORDER, List.map_cons, List.map_nil, List.sum_cons,
      List.sum_nil]
    ring

/-- Helper: the saved-hours percentage KPI is 0 whenever total modeled
hours equal total baseline hours (both branches of the guard give 0). -/
theorem kpi_pct_eq_zero_of_eq_sums (b m : Phase → ℚ) (cr : CostResults)
    (h : (PHASE_ORDER.map m).sum = (PHASE_ORDER.map b).sum) :
    (get_kpi_summary b m cr).total_hours_saved_pct = 0 := by
  show (if 0 < (PHASE_ORDER.map b).sum then
      ((PHASE_ORDER.map b).sum - (PHASE_ORDER.map m).sum)
        / (PHASE_ORDER.map b).sum * 100
    else 0) = 0
  rw [h]
  split <;> simp

/-- C7: when the maturity map assigns 0 to every initiative of the
matrix (and the scenario is well-formed: non-negative hours and
allocation), the modeled hours equal the baseline hours in every phase and
the `total_hours_saved_pct` KPI is 0 for any rate and avoidance setting. -/
theorem C7_zero_maturity_is_identity (maturity_levels : List (String × ℚ))
    (total_hours : ℚ) (allocation : Phase → ℚ)
    (hml : ∀ i ∈ INITIATIVE_FALLBACK, maturity_levels.lookup i = some 0)
    (hth : 0 ≤ total_hours) (halloc : ∀ p, 0 ≤ allocation p) :
    (∀ p, modeled_hours maturity_levels total_hours allocation p
        = calculate_baseline_hours total_hours allocation p)
    ∧ ∀ (blended_rate : ℚ) (include_ca : Bool)
        (cfg : Option CostAvoidanceConfig),
        (get_kpi_summary (calculate_baseline_hours total_hours allocation)
          (modeled_hours maturity_levels total_hours allocation)
          (calculate_costs_and_savings
            (calculate_baseline_hours total_hours allocation)
            (modeled_hours maturity_levels total_hours allocation)
            blended_rate include_ca cfg)).total_hours_saved_pct = 0 := by
  have hdelta : ∀ p, phaseDelta maturity_levels total_hours p = 0 := by
    intro p
    unfold phaseDelta
    have hz : ∀ i ∈ INITIATIVE_FALLBACK,
        apply_maturity_to_matrix maturity_levels total_hours i p
          = (fun _ => (0 : ℚ)) i := by
      intro i hi
      unfold apply_maturity_to_matrix maturityFactor
      rw [hml i hi]
      norm_num
    rw [List.map_congr_left hz]
    simp
  have hmb : ∀ p, modeled_hours maturity_levels total_hours allocation p
      = calculate_baseline_hours total_hours allocation p := by
    intro p
    have hp : p ∈ MATRIX_COLUMNS := by
      cases p <;> simp [MATRIX_COLUMNS, PHASE_ORDER]
    unfold modeled_hours
    rw [if_pos hp, hdelta p, add_zero, max_eq_right]
    exact mul_nonneg hth (div_nonneg (halloc p) (by norm_num))
  refine ⟨hmb, fun blended_rate include_ca cfg => ?_⟩
  exact kpi_pct_eq_zero_of_eq_sums _ _ _
    (by rw [List.map_congr_left (fun p _ => hmb p)])

/-- Witness for C7: all eight initiatives at maturity 0, default allocation,
17054 hours, rate 100, Moderate avoidance preset. -/
theorem C7_zero_maturity_is_identity_witness :
    ((∀ i ∈ INITIATIVE_FALLBACK,
        (List.lookup i
          [("Modernization Studio", (0 : ℚ)), ("AI/Automation", 0),
           ("N2S CARM", 0), ("Preconfigured Envs", 0),
           ("Automated Testing", 0), ("EDCC", 0),
           ("Integration Code Reuse", 0), ("Agile + DevOps Practices", 0)])
          = some 0)
      ∧ (0 : ℚ) ≤ 17054 ∧ (∀ p, 0 ≤ DEFAULT_PHASE_ALLOCATION p))
    ∧ (get_kpi_summary (calculate_baseline_hours 17054 DEFAULT_PHASE_ALLOCATION)
        (modeled_hours
          [("Modernization Studio", (0 : ℚ)), ("AI/Automation", 0),
           ("N2S CARM", 0), ("Preconfigured Envs", 0),
           ("Automated Testing", 0), ("EDCC", 0),
           ("Integration Code Reuse", 0), ("Agile + DevOps Practices", 0)]
          17054 DEFAULT_PHASE_ALLOCATION)
        (calculate_costs_and_savings
          (calculate_baseline_hours 17054 DEFAULT_PHASE_ALLOCATION)
          (modeled_hours
            [("Modernization Studio", (0 : ℚ)), ("AI/Automation", 0),
             ("N2S CARM", 0), ("Preconfigured Envs", 0),
             ("Automated Testing", 0), ("EDCC", 0),
             ("Integration Code Reuse", 0), ("Agile + DevOps Practices", 0)]
            17054 DEFAULT_PHASE_ALLOCATION)
          100 true (some ⟨5/2, 4/5⟩))).total_hours_saved_pct = 0 := by
  have hml : ∀ i ∈ INITIATIVE_FALLBACK,
      (List.lookup i
        [("Modernization Studio", (0 : ℚ)), ("AI/Automation", 0),
         ("N2S CARM", 0), ("Preconfigured Envs", 0),
         ("Automated Testing", 0), ("EDCC", 0),
         ("Integration Code Reuse", 0), ("Agile + DevOps Practices", 0)])
        = some 0 := by
    intro i hi
    fin_cases hi <;> rfl
  have hth : (0 : ℚ) ≤ 17054 := by norm_num
  have halloc : ∀ p, 0 ≤ DEFAULT_PHASE_ALLOCATION p := by
    intro p
    cases p <;> norm_num [DEFAULT_PHASE_ALLOCATION]
  exact ⟨⟨hml, hth, halloc⟩,
    (C7_zero_maturity_is_identity _ 17054 DEFAULT_PHASE_ALLOCATION hml hth
      halloc).2 100 true (some ⟨5/2, 4/5⟩)⟩

/-- Helper: a proportional split by weights `w` summing to a nonzero `W`
adds back up to the split quantity. -/
theorem sum_shares_eq (l : List Role) (w : Role → ℚ) (W ph : ℚ) (hW : W ≠ 0)
    (hsum : (l.map w).sum = W) :
    (l.map (fun r => ph * (w r / W))).sum = ph := by
  have h1 : (l.map (fun r => ph * (w r / W))).sum
      = (l.map (fun r => (ph / W) * w r)).sum := by
    apply congrArg
    apply List.map_congr_left
    intro r _
    ring
  rw [h1, List.sum_map_mul_left, hsum]
  exact div_mul_cancel₀ ph hW

/-- Helper: the baseline branch of `calculate_role_based_hours` (no savings,
no multipliers) is the plain proportional share behind the zero-weight
guard. -/
theorem role_based_hours_baseline_eq (phase_hours : Phase → ℚ) (r : Role)
    (p : Phase) :
    calculate_role_based_hours phase_hours false none r p
      = if 0 < phaseTotalWeight p
        then phase_hours p * (roleWeight r p / phaseTotalWeight p)
        else 0 := by
  unfold calculate_role_based_hours
  simp

/-- C3: for the baseline role allocation, the proportional split
reconciles exactly: for any phase with positive total role weight the role
hours sum back to the phase hours, and a phase with zero total weight gives
every role 0 hours. -/
theorem C3_baseline_role_split_reconciles (phase_hours : Phase → ℚ)
    (p : Phase) :
    (0 < phaseTotalWeight p →
      (ROLES.map
        (fun r => calculate_role_based_hours phase_hours false none r p)).sum
        = phase_hours p)
    ∧ (phaseTotalWeight p = 0 →
        ∀ r, calculate_role_based_hours phase_hours false none r p = 0) := by
  constructor
  · intro hW
    have hterm : ∀ r ∈ ROLES,
        calculate_role_based_hours phase_hours false none r p
          = phase_hours p * (roleWeight r p / phaseTotalWeight p) := by
      intro r _
      rw [role_based_hours_baseline_eq, if_pos hW]
    rw [List.map_congr_left hterm]
    exact sum_shares_eq ROLES (fun r => roleWeight r p) _ _ (ne_of_gt hW) rfl
  · intro h0 r
    rw [role_based_hours_baseline_eq, h0]
    simp

/-- Witness for C3: Build has positive total role weight, and splitting 100
Build hours across the sixteen roles returns exactly 100. -/
theorem C3_baseline_role_split_reconciles_witness :
    0 < phaseTotalWeight Phase.build
    ∧ (ROLES.map
        (fun r => calculate_role_based_hours (fun _ => 100) false none r
          Phase.build)).sum = 100 := by
  have hW : 0 < phaseTotalWeight Phase.build := by
    norm_num [phaseTotalWeight, ROLES, roleWeight, base_hours,
      ROLE_PHASE_ALLOCATION]
  exact ⟨hW,
    (C3_baseline_role_split_reconciles (fun _ => 100) Phase.build).1 hW⟩

/-- Helper: the modeled branch of `calculate_role_based_hours`, for a role
with an entry `m` in the multiplier dict, is the proportional share times
`(2 - m)` behind the zero-weight guard — including the `m = 1` case, where
the source skips the correction but `2 - 1 = 1` makes the two branches
agree. -/
theorem role_based_hours_modeled_eq (phase_hours : Phase → ℚ)
    (ms : List (Role × ℚ)) (m : ℚ) (r : Role) (p : Phase)
    (hm : ms.lookup r = some m) :
    calculate_role_based_hours phase_hours true (some ms) r p
      = if 0 < phaseTotalWeight p
        then phase_hours p * (roleWeight r p / phaseTotalWeight p) * (2 - m)
        else 0 := by
  unfold calculate_role_based_hours
  simp only [hm]
  by_cases h1 : m = 1
  · subst h1
    norm_num
  · simp [h1]

/-- C8: in the modeled scenario, a role with derived multiplier `m` in
the multiplier dict receives its proportional phase share times `(2 - m)`;
with a positive share, `m > 1` strictly reduces the role hours and
`m < 1` strictly increases them. -/
theorem C8_role_multiplier_correction (phase_hours : Phase → ℚ)
    (ms : List (Role × ℚ)) (m : ℚ) (r : Role) (p : Phase)
    (hm : ms.lookup r = some m) (hW : 0 < phaseTotalWeight p) :
    calculate_role_based_hours phase_hours true (some ms) r p
      = phase_hours p * (roleWeight r p / phaseTotalWeight p) * (2 - m)
    ∧ (1 < m → 0 < phase_hours p * (roleWeight r p / phaseTotalWeight p) →
        calculate_role_based_hours phase_hours true (some ms) r p
          < phase_hours p * (roleWeight r p / phaseTotalWeight p))
    ∧ (m < 1 → 0 < phase_hours p * (roleWeight r p / phaseTotalWeight p) →
        phase_hours p * (roleWeight r p / phaseTotalWeight p)
          < calculate_role_based_hours phase_hours true (some ms) r p) := by
  have heq := role_based_hours_modeled_eq phase_hours ms m r p hm
  rw [if_pos hW] at heq
  refine ⟨heq, fun h1 hpos => ?_, fun h1 hpos => ?_⟩
  · rw [heq]
    nlinarith
  · rw [heq]
    nlinarith

/-- Witness for C8: the Degree Works Scribe with multiplier 1.2 on 100 Build
hours ends up strictly below its unmultiplied share. -/
theorem C8_role_multiplier_correction_witness :
    (([(Role.degreeWorksScribe, (6 : ℚ)/5)]).lookup Role.degreeWorksScribe
        = some (6/5)
      ∧ 0 < phaseTotalWeight Phase.build
      ∧ (1 : ℚ) < 6/5
      ∧ 0 < (100 : ℚ) * (roleWeight Role.degreeWorksScribe Phase.build
              / phaseTotalWeight Phase.build))
    ∧ calculate_role_based_hours (fun _ => 100) true
        (some [(Role.degreeWorksScribe, (6 : ℚ)/5)]) Role.degreeWorksScribe
        Phase.build
      < (100 : ℚ) * (roleWeight Role.degreeWorksScribe Phase.build
          / phaseTotalWeight Phase.build) := by
  have hm : ([(Role.degreeWorksScribe, (6 : ℚ)/5)]).lookup
      Role.degreeWorksScribe = some (6/5) := rfl
  have hW : 0 < phaseTotalWeight Phase.build := by
    norm_num [phaseTotalWeight, ROLES, roleWeight, base_hours,
      ROLE_PHASE_ALLOCATION]
  have h1 : (1 : ℚ) < 6/5 := by norm_num
  have hpos : 0 < (100 : ℚ) * (roleWeight Role.degreeWorksScribe Phase.build
      / phaseTotalWeight Phase.build) := by
    apply mul_pos (by norm_num)
    apply div_pos _ hW
    norm_num [roleWeight, base_hours, ROLE_PHASE_ALLOCATION]
  exact ⟨⟨hm, hW, h1, hpos⟩,
    (C8_role_multiplier_correction (fun _ => 100)
      [(Role.degreeWorksScribe, (6 : ℚ)/5)] (6/5) Role.degreeWorksScribe
      Phase.build hm hW).2.1 h1 hpos⟩

/-- Helper: a value found by `List.lookup` satisfies any property satisfied
by every value of the association list. -/
theorem lookup_satisfies {α β : Type _} [BEq α] (P : β → Prop)
    (l : List (α × β)) (hall : ∀ x ∈ l, P x.2) (k : α) (b : β)
    (h : l.lookup k = some b) : P b := by
  induction l with
  | nil => simp at h
  | cons x xs ih =>
    rcases x with ⟨k', v⟩
    rw [List.lookup_cons] at h
    cases hk : k == k' with
    | true =>
      rw [hk] at h
      injection h with hv
      subst hv
      exact hall ⟨k', v⟩ (List.mem_cons_self _ _)
    | false =>
      rw [hk] at h
      exact ih (fun y hy => hall y (List.mem_cons_of_mem _ hy)) h

/-- Helper: every row of `SAVINGS_CATEGORY_MAPPING` has category weights
summing to exactly 1 over the three strategic categories. -/
theorem mapping_row_weight_sum (nm : String) (alloc : List (String × ℚ))
    (h : SAVINGS_CATEGORY_MAPPING.lookup nm = some alloc) :
    (alloc.lookup "OOtB Config").getD 0
      + (alloc.lookup "N2S Methodology & Controls").getD 0
      + (alloc.lookup "AI & Automation").getD 0 = 1 := by
  refine lookup_satisfies
    (fun a => (a.lookup "OOtB Config").getD 0
      + (a.lookup "N2S Methodology & Controls").getD 0
      + (a.lookup "AI & Automation").getD 0 = 1)
    SAVINGS_CATEGORY_MAPPING ?_ nm alloc h
  intro x hx
  fin_cases hx
  · show (0.15 : ℚ) + 0.30 + 0.55 = 1
    norm_num
  · show (0.10 : ℚ) + 0.20 + 0.70 = 1
    norm_num
  · show (0.50 : ℚ) + 0.35 + 0.15 = 1
    norm_num
  · show (0.35 : ℚ) + 0.65 + 0 = 1
    norm_num
  · show (0.08 : ℚ) + 0.80 + 0.12 = 1
    norm_num
  · show (0.65 : ℚ) + 0.13 + 0.22 = 1
    norm_num
  · show (0.60 : ℚ) + 0.27 + 0.13 = 1
    norm_num
  · show (0 : ℚ) + 0.55 + 0.45 = 1
    norm_num
  · show (0.45 : ℚ) + 0.35 + 0.20 = 1
    norm_num
  · show (0.10 : ℚ) + 0.75 + 0.15 = 1
    norm_num
  · show (0.10 : ℚ) + 0.70 + 0.20 = 1
    norm_num

/-- Helper: the contributions of one maturity entry across the three
categories collapse to its share of the role savings, `S / T * maturity`, given a
non-negative maturity that is mapped whenever positive. -/
theorem contribution_head (S T : ℚ) (im : String × ℚ) (hnn : 0 ≤ im.2)
    (hmapped : 0 < im.2 → (SAVINGS_CATEGORY_MAPPING.lookup im.1).isSome) :
    categoryContribution S T "OOtB Config" im
      + categoryContribution S T "N2S Methodology & Controls" im
      + categoryContribution S T "AI & Automation" im = S / T * im.2 := by
  by_cases hpos : 0 < im.2
  · obtain ⟨alloc, halloc⟩ := Option.isSome_iff_exists.mp (hmapped hpos)
    have hrow := mapping_row_weight_sum im.1 alloc halloc
    unfold categoryContribution
    simp only [if_pos hpos, halloc]
    linear_combination (S * (im.2 / T)) * hrow
  · have hz : im.2 = 0 := le_antisymm (not_lt.mp hpos) hnn
    unfold categoryContribution
    rw [if_neg hpos, if_neg hpos, if_neg hpos, hz]
    simp

/-- Helper: summing the category contributions of a whole maturity list
over the three categories yields `S / T` times the total maturity weight. -/
theorem contributions_sum (S T : ℚ) (ml : List (String × ℚ))
    (hnn : ∀ im ∈ ml, 0 ≤ im.2)
    (hmapped : ∀ im ∈ ml, 0 < im.2 →
      (SAVINGS_CATEGORY_MAPPING.lookup im.1).isSome) :
    (ml.map (categoryContribution S T "OOtB Config")).sum
      + (ml.map (categoryContribution S T "N2S Methodology & Controls")).sum
      + (ml.map (categoryContribution S T "AI & Automation")).sum
      = S / T * (ml.map Prod.snd).sum := by
  induction ml with
  | nil => simp
  | cons im rest ih =>
    have hrest := ih (fun x hx => hnn x (List.mem_cons_of_mem _ hx))
      (fun x hx => hmapped x (List.mem_cons_of_mem _ hx))
    have hhead := contribution_head S T im (hnn im (List.mem_cons_self _ _))
      (hmapped im (List.mem_cons_self _ _))
    simp only [List.map_cons, List.sum_cons]
    rw [mul_add]
    linarith [hhead, hrest]

/-- C2, counterexample: the category decomposition is NOT exact for
every caller-supplied maturity map.  With the single maturity entry
`{"Mystery Lever": 50}` (positive maturity, but absent from
`SAVINGS_CATEGORY_MAPPING`), baseline 1 h and modeled 0 h for every role
and phase, the Project Manager savings are 7 h but every category gets 0,
so the categories sum to 0 ≠ 7. -/
theorem C2_counterexample :
    ¬ ((SAVINGS_CATEGORIES.map
          (calculate_savings_by_category (fun _ _ => 1) (fun _ _ => 0)
            [("Mystery Lever", 50)] Role.projectManager)).sum
        = role_savings (fun _ _ => 1) (fun _ _ => 0) Role.projectManager) := by
  intro h
  rw [show role_savings (fun _ _ => 1) (fun _ _ => 0) Role.projectManager
      = 7 by norm_num [role_savings, PHASE_ORDER]] at h
  have hlk : SAVINGS_CATEGORY_MAPPING.lookup "Mystery Lever" = none := rfl
  norm_num [SAVINGS_CATEGORIES, calculate_savings_by_category,
    total_maturity_weight, categoryContribution, hlk] at h

/-- C2, amended: the category decomposition is exact —
`Σ_c category[r,c] = S[r]` for every role, whatever role-hour tables are
supplied (so independently of the non-reconciling role-multiplier step) —
for every maturity map with non-negative values, positive total weight,
and every positive-maturity initiative present in
`SAVINGS_CATEGORY_MAPPING` (as all catalog initiatives are). -/
theorem C2_amended_category_decomposition_exact
    (baseline_role_hours modeled_role_hours : Role → Phase → ℚ)
    (maturity_levels : List (String × ℚ)) (r : Role)
    (hnn : ∀ im ∈ maturity_levels, 0 ≤ im.2)
    (hmapped : ∀ im ∈ maturity_levels, 0 < im.2 →
      (SAVINGS_CATEGORY_MAPPING.lookup im.1).isSome)
    (hT : 0 < total_maturity_weight maturity_levels) :
    (SAVINGS_CATEGORIES.map
      (calculate_savings_by_category baseline_role_hours modeled_role_hours
        maturity_levels r)).sum
      = role_savings baseline_role_hours modeled_role_hours r := by
  have hkey := contributions_sum
    (role_savings baseline_role_hours modeled_role_hours r)
    (total_maturity_weight maturity_levels) maturity_levels hnn hmapped
  simp only [SAVINGS_CATEGORIES, List.map_cons, List.map_nil, List.sum_cons,
    List.sum_nil, calculate_savings_by_category, if_pos hT, add_zero]
  rw [show (maturity_levels.map Prod.snd).sum
      = total_maturity_weight maturity_levels from rfl] at hkey
  rw [← add_assoc, hkey, div_mul_cancel₀ _ (ne_of_gt hT)]

/-- Witness for C2 (amended): one mapped initiative at 50% maturity,
baseline 1 h and modeled 0 h everywhere: the three categories sum to the
Project Manager total of 7 saved hours. -/
theorem C2_amended_category_decomposition_exact_witness :
    ((∀ im ∈ [(("Automated Testing" : String), (50 : ℚ))], 0 ≤ im.2)
      ∧ (∀ im ∈ [(("Automated Testing" : String), (50 : ℚ))], 0 < im.2 →
          (SAVINGS_CATEGORY_MAPPING.lookup im.1).isSome)
      ∧ 0 < total_maturity_weight [("Automated Testing", 50)])
    ∧ (SAVINGS_CATEGORIES.map
        (calculate_savings_by_category (fun _ _ => 1) (fun _ _ => 0)
          [("Automated Testing", 50)] Role.projectManager)).sum
      = role_savings (fun _ _ => 1) (fun _ _ => 0) Role.projectManager := by
  have hnn : ∀ im ∈ [(("Automated Testing" : String), (50 : ℚ))],
      0 ≤ im.2 := by
    intro im him
    fin_cases him
    norm_num
  have hmapped : ∀ im ∈ [(("Automated Testing" : String), (50 : ℚ))],
      0 < im.2 → (SAVINGS_CATEGORY_MAPPING.lookup im.1).isSome := by
    intro im him _
    fin_cases him
    rfl
  have hT : 0 < total_maturity_weight [("Automated Testing", 50)] := by
    norm_num [total_maturity_weight]
  exact ⟨⟨hnn, hmapped, hT⟩,
    C2_amended_category_decomposition_exact (fun _ _ => 1) (fun _ _ => 0)
      [("Automated Testing", 50)] Role.projectManager hnn hmapped hT⟩

end N2S
